import Mathlib

/-!
Verification development for `fpwrap.h` (dnbaker/fpwrap): a shallow Lean
embedding of the `fp` namespace — the `get_fsz` file-size probes and the
`FpWrapper` class template — together with theorems settling the spec's
claims about them.

The underlying I/O libraries (stdio, zlib) are external to the repository;
they are modelled abstractly: the filesystem / stream environment is a
parameter of every embedded operation, with the documented stdio/zlib
return conventions (byte counts, negative gzip error codes, null on failed
open) built into the model.
-/

namespace fp

/-- `std::uint64_t(-1)`: the "unknown size" sentinel returned by both
`get_fsz` specializations (`return -1;` converted to `std::uint64_t`). -/
def UINT64MAX : Nat := 2 ^ 64 - 1

/-- `sizeof(buf)` in `get_fsz<gzFile>`: `char buf[1 << 15]`, i.e. 32 KiB. -/
def GZ_CHUNK : Nat := 2 ^ 15

/-- Embedding of `get_fsz<std::FILE *>`.

The environment `fpMeta` models `fopen(path, "rb")` followed by
`fstat`: `some sz` when the path opens, giving `st_size`; `none` when
`fopen` returns null. The source then returns `fs.st_size` on success and
`-1` (as `uint64_t`) on failure. -/
def get_fsz_fp (fpMeta : String → Option Nat) (path : String) : Nat :=
  match fpMeta path with
  | some sz => sz
  | none => UINT64MAX

/-- The `while((i = gzread(p, buf, sizeof(buf))) == sizeof(buf)) tot_read += sizeof(buf);`
loop of `get_fsz<gzFile>`, followed by
`if(i < 0) fprintf(stderr, ...); else tot_read += i;`.

The gzip stream is modelled by the list of results successive
`gzread(p, buf, 32768)` calls return (zlib: a non-negative byte count
`≤ 32768`, short exactly at end of stream, or a negative error code).
Returns the accumulated total together with whether the warning was
printed. The `[]` case is unreachable for a well-formed stream (zlib's
`gzread` always returns a value); it is mapped to the accumulator. -/
def gzProbeLoop : List Int → Nat → Nat × Bool
  | [], tot_read => (tot_read, false)
  | i :: rest, tot_read =>
    if i = (GZ_CHUNK : Int) then gzProbeLoop rest (tot_read + GZ_CHUNK)
    else if i < 0 then (tot_read, true)
    else (tot_read + i.toNat, false)

/-- Embedding of `get_fsz<gzFile>`.

The environment `gzEnv` models `gzopen(path, "rb")`: `some rs` when the
path opens, where `rs` is the stream's sequence of `gzread` chunk results;
`none` when `gzopen` returns null (then the source returns `-1` as
`uint64_t`). -/
def get_fsz_gz (gzEnv : String → Option (List Int)) (path : String) : Nat :=
  match gzEnv path with
  | some rs => (gzProbeLoop rs 0).1
  | none => UINT64MAX

/-- The `gzread` result sequence of an error-free gzip stream holding `k`
full 32 KiB chunks followed by a final short result `r` (`r` is the last
short read's count, or a negative error code). -/
def chunkResults (k : Nat) (r : Int) : List Int :=
  List.replicate k (GZ_CHUNK : Int) ++ [r]

/-! ### The `FpWrapper` class template

`FpWrapper<PointerType>` is compile-time polymorphic over the backend:
`PointerType = std::FILE *` (plain buffered stdio) or `gzFile` (zlib).
We model the backend kind as a field fixed by construction and never
written by any operation, mirroring `is_gz()` / `CONST_IF` dispatch.

OS-level resources (`FILE *` / `gzFile` values handed out by
`fopen`/`gzopen`) are modelled as numeric ids allocated by an abstract
system state `Sys`, which tracks the lists of live resources of each
backend so that leak claims are expressible. -/

/-- The two instantiations of `PointerType`. -/
inductive BKind
  | plain
  | gz
deriving DecidableEq, Repr

/-- Abstract system state: fresh resource ids plus the live (not yet
closed) resources held from each backend library. -/
structure Sys where
  nextId : Nat
  liveFp : List Nat
  liveGz : List Nat
deriving DecidableEq, Repr

/-- The live-resource list of the given backend. -/
def Sys.liveOf (s : Sys) : BKind → List Nat
  | .plain => s.liveFp
  | .gz => s.liveGz

/-- `fopen(path, mode)`: allocates a fresh live `FILE *` resource when the
environment `openable` accepts the path/mode pair, else returns null. -/
def fopenSys (openable : String → String → Bool) (s : Sys) (path mode : String) :
    Option Nat × Sys :=
  if openable path mode then
    (some s.nextId, { s with nextId := s.nextId + 1, liveFp := s.nextId :: s.liveFp })
  else (none, s)

/-- `gzopen(path, mode)`: allocates a fresh live `gzFile` resource when the
environment `openable` accepts the path/mode pair, else returns null. -/
def gzopenSys (openable : String → String → Bool) (s : Sys) (path mode : String) :
    Option Nat × Sys :=
  if openable path mode then
    (some s.nextId, { s with nextId := s.nextId + 1, liveGz := s.nextId :: s.liveGz })
  else (none, s)

/-- `fclose(p)`: releases a live `FILE *` resource. -/
def fcloseSys (s : Sys) (r : Nat) : Sys :=
  { s with liveFp := s.liveFp.erase r }

/-- `gzclose(p)`: releases a live `gzFile` resource. -/
def gzcloseSys (s : Sys) (r : Nat) : Sys :=
  { s with liveGz := s.liveGz.erase r }

/-- `BUFSIZ` (glibc value), the initial size of the member `buf_`. -/
def BUFSIZ : Nat := 8192

/-- The persistent state of an `FpWrapper<PointerType>` object:
`kind` is the template argument (fixed per instantiation), `ptr_` the held
resource (`none` = `nullptr`), `path_` and the size of `buf_` the other
two members. -/
structure FpWrapper where
  kind : BKind
  ptr_ : Option Nat
  path_ : String
  bufSz : Nat
deriving DecidableEq, Repr

/-- The default constructor `FpWrapper(type ptr=nullptr)`:
`ptr_(nullptr), buf_(BUFSIZ)`, `path_` default-constructed empty. -/
def FpWrapper.init (k : BKind) : FpWrapper :=
  { kind := k, ptr_ := none, path_ := "", bufSz := BUFSIZ }

/-- `path()` accessor. -/
def FpWrapper.path (w : FpWrapper) : String := w.path_

/-- `is_open()`: `return ptr_ != nullptr;`. -/
def FpWrapper.is_open (w : FpWrapper) : Bool := w.ptr_.isSome

/-- `close()`: backend-appropriate release (`gzclose` / `fclose`) of the
held resource, then `ptr_ = nullptr;` and `path_.clear();`.

The source calls the release function unconditionally; on a null `ptr_`
that call is undefined behaviour (every in-source caller guards with
`if(ptr_)`), modelled here as leaving the system unchanged. -/
def FpWrapper.close (w : FpWrapper) (s : Sys) : FpWrapper × Sys :=
  let s' := match w.kind, w.ptr_ with
    | .gz, some r => gzcloseSys s r
    | .plain, some r => fcloseSys s r
    | _, none => s
  ({ w with ptr_ := none, path_ := "" }, s')

/-- The exception thrown by `open`: `std::runtime_error` carrying its
message string. -/
structure OpenError where
  msg : String
deriving DecidableEq, Repr

/-- `open(const char *path, const char *mode)`:
`if(ptr_) close();` then backend-appropriate acquire
(`gzopen`/`fopen`, chosen by `openable w.kind`); on a null result the
`std::runtime_error` is thrown (third component `some`), after `ptr_`
was already assigned the null result; on success `path_ = path`. -/
def FpWrapper.openFile (openable : BKind → String → String → Bool)
    (w : FpWrapper) (s : Sys) (path mode : String) :
    FpWrapper × Sys × Option OpenError :=
  let (w1, s1) := if w.ptr_.isSome then w.close s else (w, s)
  let (res, s2) := match w1.kind with
    | .gz => gzopenSys (openable .gz) s1 path mode
    | .plain => fopenSys (openable .plain) s1 path mode
  match res with
  | none =>
    ({ w1 with ptr_ := none }, s2,
      some ⟨"Could not open file at " ++ path ++ " with mode" ++ mode⟩)
  | some rid => ({ w1 with ptr_ := some rid, path_ := path }, s2, none)

/-- `seekable()`: `CONST_IF(is_gz()) return false;` else
`fstat(fileno(as_fp()), &s); return !S_ISFIFO(s.st_mode);`.
The environment `isFifo` gives each open descriptor's
`S_ISFIFO(st_mode)` metadata. On a closed plain handle the source's
`fileno(nullptr)` is undefined behaviour; modelled as `false`. -/
def FpWrapper.seekable (w : FpWrapper) (isFifo : Nat → Bool) : Bool :=
  match w.kind with
  | .gz => false
  | .plain =>
    match w.ptr_ with
    | some r => !isFifo r
    | none => false

/-! ### Stream-level model of `read`

`read(void *ptr, size_t nb)` dispatches to `gzread` (gzip instantiation,
returning `int`: a byte count or a negative error code) or
`std::fread(ptr, 1, nb, fp)` (plain instantiation, returning `size_t`).
A caller buffer is a byte list whose first `nb` bytes the call may
overwrite; a stream is its decompressed/raw content plus a position. -/

/-- A zlib stream as seen through `gzread`: decompressed content, current
position, and `errCode = some e` when the stream is in an error state in
which `gzread` returns the (negative) code `e`. -/
structure GzStream where
  data : List Nat
  pos : Nat
  errCode : Option Int
deriving DecidableEq, Repr

/-- A stdio stream as seen through `fread`: content and position
(`fread` reports errors only through short counts and `ferror`, never a
negative return — its return type is `size_t`). -/
structure CStream where
  data : List Nat
  pos : Nat
deriving DecidableEq, Repr

/-- `gzread(file, buf, nb)`: on an errored stream returns the negative
code and moves nothing; otherwise reads
`k = min(nb, remaining)` bytes into the front of `buf`, advances the
position and returns `k`. Result: (return value, stream, buffer). -/
def gzread (s : GzStream) (buf : List Nat) (nb : Nat) : Int × GzStream × List Nat :=
  match s.errCode with
  | some e => (e, s, buf)
  | none =>
    let k := min nb (s.data.length - s.pos)
    ((k : Int), { s with pos := s.pos + k },
      (s.data.drop s.pos).take k ++ buf.drop k)

/-- `std::fread(buf, 1, nb, fp)`: reads `k = min(nb, remaining)` bytes
into the front of `buf`, advances the position and returns `k` (a
`size_t`). -/
def fread (s : CStream) (buf : List Nat) (nb : Nat) : Nat × CStream × List Nat :=
  let k := min nb (s.data.length - s.pos)
  (k, { s with pos := s.pos + k }, (s.data.drop s.pos).take k ++ buf.drop k)

/-- `FpWrapper<gzFile>::read(void *ptr, size_t nb)`:
`return gzread(as_gz(), ptr, nb);` applied to the stream the handle's
resource designates. -/
def FpWrapper.readGz (_w : FpWrapper) (s : GzStream) (buf : List Nat) (nb : Nat) :
    Int × GzStream × List Nat :=
  gzread s buf nb

/-- `FpWrapper<std::FILE *>::read(void *ptr, size_t nb)`:
`return std::fread(ptr, 1, nb, as_fp());`. -/
def FpWrapper.readFp (_w : FpWrapper) (s : CStream) (buf : List Nat) (nb : Nat) :
    Nat × CStream × List Nat :=
  fread s buf nb

/-- `FpWrapper<gzFile>::read(T &val)`:
`return this->read(std::addressof(val), sizeof(T));` — the value is its
byte representation `v`, its address the buffer, `sizeof(T)` its
length. -/
def FpWrapper.readValGz (w : FpWrapper) (s : GzStream) (v : List Nat) :
    Int × GzStream × List Nat :=
  w.readGz s v v.length

/-- `FpWrapper<std::FILE *>::read(T &val)`:
`return this->read(std::addressof(val), sizeof(T));`. -/
def FpWrapper.readValFp (w : FpWrapper) (s : CStream) (v : List Nat) :
    Nat × CStream × List Nat :=
  w.readFp s v v.length

/-! ### Theorems -/

/-- Unfolding of the probe loop over a stream of `k` full 32 KiB chunk
reads followed by a final short result `r`: each full chunk contributes
32 KiB; a non-negative `r` is added; a negative `r` triggers the warning
and stops the accumulation. -/
theorem gzProbeLoop_chunkResults (k : Nat) (r : Int) (acc : Nat) (hr : r < (GZ_CHUNK : Int)) :
    gzProbeLoop (chunkResults k r) acc =
      (acc + GZ_CHUNK * k + (if r < 0 then 0 else r.toNat), decide (r < 0)) := by
  induction k generalizing acc with
  | zero =>
    have hne : r ≠ (GZ_CHUNK : Int) := by omega
    by_cases hneg : r < 0
    · simp [chunkResults, gzProbeLoop, hne, hneg]
    · simp [chunkResults, gzProbeLoop, hne, hneg]
  | succ n ih =>
    have hstep : chunkResults (n + 1) r = (GZ_CHUNK : Int) :: chunkResults n r := by
      simp [chunkResults, List.replicate_succ]
    have hcons : gzProbeLoop ((GZ_CHUNK : Int) :: chunkResults n r) acc
        = gzProbeLoop (chunkResults n r) (acc + GZ_CHUNK) := by
      simp [gzProbeLoop]
    have harith : acc + GZ_CHUNK + GZ_CHUNK * n = acc + GZ_CHUNK * (n + 1) := by ring
    rw [hstep, hcons, ih (acc + GZ_CHUNK), harith]

/-- C1: on a path the gzip backend opens onto a stream of `k` full 32 KiB
chunk reads followed by a final short result `r`, `get_fsz<gzFile>`
returns 32 KiB per full chunk plus the final short read's count when
`r ≥ 0`; when `r < 0` the warning flag is set and the total accumulated
so far (the full chunks only) is returned. -/
theorem get_fsz_gz_scan (gzEnv : String → Option (List Int)) (path : String)
    (k : Nat) (r : Int)
    (hs : gzEnv path = some (chunkResults k r)) (hr : r < (GZ_CHUNK : Int)) :
    get_fsz_gz gzEnv path = GZ_CHUNK * k + (if r < 0 then 0 else r.toNat)
      ∧ (gzProbeLoop (chunkResults k r) 0).2 = decide (r < 0) := by
  have h := gzProbeLoop_chunkResults k r 0 hr
  refine ⟨?_, by rw [h]⟩
  simp [get_fsz_gz, hs, h]

/-- C1 witness: a stream of two full chunks then error code `-3` probes to
`65536` with the warning raised; two full chunks then a 5-byte tail probes
to `65541` without it. -/
theorem get_fsz_gz_scan_witness :
    (get_fsz_gz (fun _ => some (chunkResults 2 (-3))) "a.gz" = 65536
      ∧ (gzProbeLoop (chunkResults 2 (-3)) 0).2 = true)
    ∧ (get_fsz_gz (fun _ => some (chunkResults 2 5)) "b.gz" = 65541
      ∧ (gzProbeLoop (chunkResults 2 5) 0).2 = false) := by
  have h1 := get_fsz_gz_scan (fun _ => some (chunkResults 2 (-3))) "a.gz" 2 (-3) rfl (by decide)
  have h2 := get_fsz_gz_scan (fun _ => some (chunkResults 2 5)) "b.gz" 2 5 rfl (by decide)
  exact ⟨⟨by simpa using h1.1, by simpa using h1.2⟩,
         ⟨by simpa using h2.1, by simpa using h2.2⟩⟩

/-- C4: when neither backend can open the path (`fopen`/`gzopen` both
null), both `get_fsz` specializations return the maximum-representable
64-bit sentinel, which is not zero. -/
theorem get_fsz_unknown (fpMeta : String → Option Nat)
    (gzEnv : String → Option (List Int)) (path : String)
    (h1 : fpMeta path = none) (h2 : gzEnv path = none) :
    get_fsz_fp fpMeta path = UINT64MAX ∧ get_fsz_gz gzEnv path = UINT64MAX
      ∧ UINT64MAX = 2 ^ 64 - 1 ∧ UINT64MAX ≠ 0 := by
  refine ⟨?_, ?_, rfl, by decide⟩
  · simp [get_fsz_fp, h1]
  · simp [get_fsz_gz, h2]

/-- C4 witness: both probes at a path no environment opens. -/
theorem get_fsz_unknown_witness :
    get_fsz_fp (fun _ => none) "missing" = UINT64MAX
      ∧ get_fsz_gz (fun _ => none) "missing" = UINT64MAX ∧ UINT64MAX ≠ 0 := by
  have h := get_fsz_unknown (fun _ => none) (fun _ => none) "missing" rfl rfl
  exact ⟨h.1, h.2.1, h.2.2.2⟩

/-- C2: `open(path, mode)` throws exactly when the backend acquire call
(`gzopen` for the gzip instantiation, `fopen` for the plain one) returns
null; the thrown error's message contains both the path and the mode; on
success the resource is set and the path recorded. -/
theorem openFile_error_iff (openable : BKind → String → String → Bool)
    (w : FpWrapper) (s : Sys) (path mode : String) :
    ((FpWrapper.openFile openable w s path mode).2.2.isSome
        ↔ openable w.kind path mode = false)
    ∧ (∀ err, (FpWrapper.openFile openable w s path mode).2.2 = some err →
        (∃ a b, err.msg = a ++ path ++ b) ∧ ∃ c d, err.msg = c ++ mode ++ d)
    ∧ (openable w.kind path mode = true →
        (FpWrapper.openFile openable w s path mode).1.ptr_.isSome = true
          ∧ (FpWrapper.openFile openable w s path mode).1.path_ = path) := by
  have hmsg : (∃ a b,
        "Could not open file at " ++ path ++ " with mode" ++ mode = a ++ path ++ b)
      ∧ ∃ c d,
        "Could not open file at " ++ path ++ " with mode" ++ mode = c ++ mode ++ d := by
    refine ⟨⟨"Could not open file at ", " with mode" ++ mode, ?_⟩,
            ⟨"Could not open file at " ++ path ++ " with mode", "", ?_⟩⟩
    · rw [String.append_assoc, String.append_assoc]
    · rw [String.append_empty]
  rcases hgw : w.ptr_ with _ | r <;>
    rcases hk : w.kind with _ | _ <;>
      rcases hop : openable w.kind path mode with _ | _ <;>
        simp only [hk] at hop <;>
          constructor <;>
            simp_all [FpWrapper.openFile, FpWrapper.close, gzopenSys, fopenSys,
              gzcloseSys, fcloseSys]

/-- C2 witness: with an environment that accepts nothing, the open call
on a fresh gzip-backed handle reports an error. -/
theorem openFile_error_iff_witness :
    ((FpWrapper.openFile (fun _ _ _ => false) (FpWrapper.init .gz)
        ⟨0, [], []⟩ "p" "m").2.2).isSome = true := by
  exact (openFile_error_iff (fun _ _ _ => false) (FpWrapper.init .gz)
    ⟨0, [], []⟩ "p" "m").1.mpr rfl

/-- C5: `close()` on an open handle releases the held resource through
the backend-appropriate release call (the other backend's live set is
untouched), nulls the resource, clears the path, and afterwards
`is_open()` is false; in general `is_open()` is true iff the resource is
present. -/
theorem close_spec (w : FpWrapper) (s : Sys) (r : Nat) (h : w.ptr_ = some r) :
    (w.close s).1.ptr_ = none
    ∧ (w.close s).1.path_ = ""
    ∧ (w.close s).1.is_open = false
    ∧ (w.is_open = true ↔ w.ptr_ ≠ none)
    ∧ (w.kind = .gz →
        (w.close s).2.liveGz = s.liveGz.erase r ∧ (w.close s).2.liveFp = s.liveFp)
    ∧ (w.kind = .plain →
        (w.close s).2.liveFp = s.liveFp.erase r ∧ (w.close s).2.liveGz = s.liveGz) := by
  rcases hk : w.kind with _ | _ <;>
    simp [FpWrapper.close, FpWrapper.is_open, h, hk, gzcloseSys, fcloseSys,
      Option.isSome_iff_ne_none]

/-- C5 witness: closing a gzip handle holding resource 7 empties the live
gzip set and leaves the handle closed with a cleared path. -/
theorem close_spec_witness :
    ((⟨.gz, some 7, "x", 0⟩ : FpWrapper).close ⟨8, [], [7]⟩).1.ptr_ = none
    ∧ ((⟨.gz, some 7, "x", 0⟩ : FpWrapper).close ⟨8, [], [7]⟩).1.path_ = ""
    ∧ ((⟨.gz, some 7, "x", 0⟩ : FpWrapper).close ⟨8, [], [7]⟩).2.liveGz = [] := by
  have h := close_spec ⟨.gz, some 7, "x", 0⟩ ⟨8, [], [7]⟩ 7 rfl
  exact ⟨h.1, h.2.1, by simpa using (h.2.2.2.2.1 rfl).1⟩

/-- C3: two successive successful `open` calls on one handle (starting
closed): the first resource is released by the second call's implicit
`close`, so exactly one resource of the handle's backend is live beyond
the initial state, the other backend's live set never changes, and a
single `close` releases the remaining resource. -/
theorem reopen_no_leak (openable : BKind → String → String → Bool)
    (w0 : FpWrapper) (s0 : Sys) (p1 m1 p2 m2 : String)
    (h0 : w0.ptr_ = none)
    (ho1 : openable w0.kind p1 m1 = true) (ho2 : openable w0.kind p2 m2 = true) :
    (FpWrapper.openFile openable
        (FpWrapper.openFile openable w0 s0 p1 m1).1
        (FpWrapper.openFile openable w0 s0 p1 m1).2.1 p2 m2).1.ptr_
      = some (s0.nextId + 1)
    ∧ (FpWrapper.openFile openable
        (FpWrapper.openFile openable w0 s0 p1 m1).1
        (FpWrapper.openFile openable w0 s0 p1 m1).2.1 p2 m2).2.1.liveOf w0.kind
      = (s0.nextId + 1) :: s0.liveOf w0.kind
    ∧ (∀ k, k ≠ w0.kind →
        (FpWrapper.openFile openable
          (FpWrapper.openFile openable w0 s0 p1 m1).1
          (FpWrapper.openFile openable w0 s0 p1 m1).2.1 p2 m2).2.1.liveOf k
        = s0.liveOf k)
    ∧ (((FpWrapper.openFile openable
          (FpWrapper.openFile openable w0 s0 p1 m1).1
          (FpWrapper.openFile openable w0 s0 p1 m1).2.1 p2 m2).1.close
        (FpWrapper.openFile openable
          (FpWrapper.openFile openable w0 s0 p1 m1).1
          (FpWrapper.openFile openable w0 s0 p1 m1).2.1 p2 m2).2.1).2.liveOf w0.kind
      = s0.liveOf w0.kind) := by
  rcases hk : w0.kind with _ | _ <;> rw [hk] at ho1 ho2 <;>
    refine ⟨?_, ?_, ?_, ?_⟩ <;>
      first
        | (intro k hkne
           rcases k with _ | _ <;> simp_all [FpWrapper.openFile, FpWrapper.close,
             gzopenSys, fopenSys, gzcloseSys, fcloseSys, Sys.liveOf])
        | simp_all [FpWrapper.openFile, FpWrapper.close, gzopenSys, fopenSys,
            gzcloseSys, fcloseSys, Sys.liveOf]

/-- C3 witness: a plain handle opened twice against an always-accepting
environment starting from a fresh system: resource 1 is the only live
descriptor afterwards and one close empties the live set. -/
theorem reopen_no_leak_witness :
    (FpWrapper.openFile (fun _ _ _ => true)
        (FpWrapper.openFile (fun _ _ _ => true) (FpWrapper.init .plain)
          ⟨0, [], []⟩ "a" "r").1
        (FpWrapper.openFile (fun _ _ _ => true) (FpWrapper.init .plain)
          ⟨0, [], []⟩ "a" "r").2.1 "b" "r").1.ptr_ = some 1
    ∧ (FpWrapper.openFile (fun _ _ _ => true)
        (FpWrapper.openFile (fun _ _ _ => true) (FpWrapper.init .plain)
          ⟨0, [], []⟩ "a" "r").1
        (FpWrapper.openFile (fun _ _ _ => true) (FpWrapper.init .plain)
          ⟨0, [], []⟩ "a" "r").2.1 "b" "r").2.1.liveFp = [1] := by
  have h := reopen_no_leak (fun _ _ _ => true) (FpWrapper.init .plain)
    ⟨0, [], []⟩ "a" "r" "b" "r" rfl rfl rfl
  exact ⟨h.1, by simpa [Sys.liveOf, FpWrapper.init] using h.2.1⟩

/-- C10: when the backend acquire call fails, `open` leaves the handle
closed with an empty recorded path (any previously held resource was
already released by the implicit `close` before the throw), and the
error is raised. The hypothesis `hwf` is the data-model invariant that a
closed handle carries an empty path, which every reachable state
satisfies. -/
theorem openFile_fail_state (openable : BKind → String → String → Bool)
    (w : FpWrapper) (s : Sys) (path mode : String)
    (hwf : w.ptr_ = none → w.path_ = "")
    (hfail : openable w.kind path mode = false) :
    (FpWrapper.openFile openable w s path mode).1.is_open = false
    ∧ (FpWrapper.openFile openable w s path mode).1.path = ""
    ∧ (FpWrapper.openFile openable w s path mode).2.2.isSome = true
    ∧ ∀ r, w.ptr_ = some r →
        (FpWrapper.openFile openable w s path mode).2.1.liveOf w.kind
          = (s.liveOf w.kind).erase r := by
  rcases hgw : w.ptr_ with _ | r <;> rcases hk : w.kind with _ | _ <;>
    rw [hk] at hfail <;>
      simp_all [FpWrapper.openFile, FpWrapper.close, FpWrapper.is_open,
        FpWrapper.path, gzopenSys, fopenSys, gzcloseSys, fcloseSys, Sys.liveOf]

/-- C10 witness: a failing open on a plain handle that held resource 3
leaves it closed, with an empty path, the error raised, and resource 3
released. -/
theorem openFile_fail_state_witness :
    (FpWrapper.openFile (fun _ _ _ => false) ⟨.plain, some 3, "old", 0⟩
        ⟨4, [3], []⟩ "p" "m").1.is_open = false
    ∧ (FpWrapper.openFile (fun _ _ _ => false) ⟨.plain, some 3, "old", 0⟩
        ⟨4, [3], []⟩ "p" "m").1.path = ""
    ∧ (FpWrapper.openFile (fun _ _ _ => false) ⟨.plain, some 3, "old", 0⟩
        ⟨4, [3], []⟩ "p" "m").2.2.isSome = true
    ∧ (FpWrapper.openFile (fun _ _ _ => false) ⟨.plain, some 3, "old", 0⟩
        ⟨4, [3], []⟩ "p" "m").2.1.liveFp = [] := by
  have h := openFile_fail_state (fun _ _ _ => false) ⟨.plain, some 3, "old", 0⟩
    ⟨4, [3], []⟩ "p" "m" (by intro hc; cases hc) rfl
  exact ⟨h.1, h.2.1, h.2.2.1, by simpa [Sys.liveOf] using h.2.2.2 3 rfl⟩

/-- C6: `seekable()` is unconditionally false for the gzip instantiation;
for an open plain handle it is the negation of the descriptor's
FIFO/pipe file-mode bit. -/
theorem seekable_spec (w : FpWrapper) (isFifo : Nat → Bool) :
    (w.kind = .gz → w.seekable isFifo = false)
    ∧ ∀ r, w.kind = .plain → w.ptr_ = some r → w.seekable isFifo = !isFifo r := by
  constructor
  · intro hk
    simp [FpWrapper.seekable, hk]
  · intro r hk hr
    simp [FpWrapper.seekable, hk, hr]

/-- C6 witness: a gzip handle is not seekable even while open; an open
plain handle on a FIFO descriptor is not seekable either. -/
theorem seekable_spec_witness :
    (⟨.gz, some 2, "g", 0⟩ : FpWrapper).seekable (fun _ => false) = false
    ∧ (⟨.plain, some 5, "f", 0⟩ : FpWrapper).seekable (fun _ => true) = false := by
  refine ⟨(seekable_spec ⟨.gz, some 2, "g", 0⟩ (fun _ => false)).1 rfl, ?_⟩
  have h := (seekable_spec ⟨.plain, some 5, "f", 0⟩ (fun _ => true)).2 5 rfl rfl
  simpa using h

/-- C7: `read(ptr, nb)` returns the actual byte count transferred — at
most `nb`, possibly 0 at end-of-stream, with exactly that many bytes
deposited at the front of the buffer — except that the gzip
instantiation returns the backend's negative error code when the stream
is in an error state; the plain instantiation's `fread` result is a
`size_t` count, never negative. -/
theorem read_count_or_negative (w : FpWrapper) (sg : GzStream) (sc : CStream)
    (bg bc : List Nat) (nb : Nat) :
    (sg.errCode = none →
      (w.readGz sg bg nb).1 = ((min nb (sg.data.length - sg.pos) : Nat) : Int)
      ∧ (w.readGz sg bg nb).1 ≤ (nb : Int)
      ∧ 0 ≤ (w.readGz sg bg nb).1
      ∧ (w.readGz sg bg nb).2.2
          = (sg.data.drop sg.pos).take (min nb (sg.data.length - sg.pos))
            ++ bg.drop (min nb (sg.data.length - sg.pos)))
    ∧ (∀ e, sg.errCode = some e → e < 0 → (w.readGz sg bg nb).1 < 0)
    ∧ ((w.readFp sc bc nb).1 = min nb (sc.data.length - sc.pos)
      ∧ (w.readFp sc bc nb).1 ≤ nb
      ∧ (w.readFp sc bc nb).2.2
          = (sc.data.drop sc.pos).take (min nb (sc.data.length - sc.pos))
            ++ bc.drop (min nb (sc.data.length - sc.pos))) := by
  refine ⟨?_, ?_, ?_, ?_, ?_⟩
  · intro he
    refine ⟨?_, ?_, ?_, ?_⟩ <;>
      simp [FpWrapper.readGz, gzread, he]
  · intro e he hneg
    simp [FpWrapper.readGz, gzread, he, hneg]
  · rfl
  · simp [FpWrapper.readFp, fread]
  · rfl

/-- C7 witness: a clean 3-byte gzip stream serves 2 of 2 requested bytes;
an errored stream returns a negative code; the plain stream at
end-of-stream returns 0. -/
theorem read_count_or_negative_witness :
    ((FpWrapper.init .gz).readGz ⟨[10, 11, 12], 0, none⟩ [0, 0] 2).1 = 2
    ∧ ((FpWrapper.init .gz).readGz ⟨[10, 11, 12], 0, some (-3)⟩ [0, 0] 2).1 < 0
    ∧ ((FpWrapper.init .plain).readFp ⟨[10], 1⟩ [0, 0] 2).1 = 0 := by
  have h1 := (read_count_or_negative (FpWrapper.init .gz) ⟨[10, 11, 12], 0, none⟩
    ⟨[10], 1⟩ [0, 0] [0, 0] 2).1 rfl
  have h2 := (read_count_or_negative (FpWrapper.init .gz) ⟨[10, 11, 12], 0, some (-3)⟩
    ⟨[10], 1⟩ [0, 0] [0, 0] 2).2.1 (-3) rfl (by decide)
  have h3 := (read_count_or_negative (FpWrapper.init .plain) ⟨[10, 11, 12], 0, none⟩
    ⟨[10], 1⟩ [0, 0] [0, 0] 2).2.2.1
  exact ⟨by simpa using h1.1, h2, by simpa using h3⟩

/-- C8: the typed overload `read(val)` is exactly
`read(address-of val, sizeof val)`: same return value, same stream
effect, same bytes written over `val`; and the value's extent is
unchanged — the overwritten representation keeps its size. -/
theorem read_typed_equiv (w : FpWrapper) (sg : GzStream) (sc : CStream)
    (v u : List Nat) :
    w.readValGz sg v = w.readGz sg v v.length
    ∧ w.readValFp sc u = w.readFp sc u u.length
    ∧ (w.readValGz sg v).2.2.length = v.length
    ∧ (w.readValFp sc u).2.2.length = u.length := by
  refine ⟨rfl, rfl, ?_, ?_⟩
  · rcases he : sg.errCode with _ | e <;>
      simp [FpWrapper.readValGz, FpWrapper.readGz, gzread, he]
  · simp [FpWrapper.readValFp, FpWrapper.readFp, fread]

end fp
